import Mathlib

/-!
Verification of the nice error-handling library (package nice, nice.go).

The library offers two operations:

* Tackle(targets ...any) Handler — partitions the targets into two lists:
  values satisfying the error interface go to errorTypes, reflect.Type
  descriptors go to artefactTypes, anything else is silently dropped.
* Handler.With(handle func(any)) — runs deferred: it calls recover();
  if a payload is in flight it matches it against the two lists
  (generic-error descriptor first, then exact error value for error
  payloads; concrete type descriptor for non-error payloads), calling
  handle and absorbing on a match, and re-panicking the same payload
  otherwise.

The embedding below models Go runtime values shallowly: a type
descriptor (reflect.Type) is identified nominally, an error value is
identified by its dynamic type together with an identity tag (two
distinct error values may carry the same message text, mirroring that
Go interface equality on errors.New values is pointer identity, not
message equality).  Handler.With takes the result of the recover()
primitive as an explicit argument (none for a normal scope exit) and
returns an instrumented record of the arguments passed to handle and
of the payload re-raised, if any.
-/

namespace Nice

/-- A Go type descriptor (a reflect.Type value), compared nominally.
The errorInterface constructor stands for reflect.TypeFor applied to
the built-in error interface; named types stand for any other concrete
type (string, int, user structs, concrete error implementations). -/
inductive GoType where
  | errorInterface : GoType
  | named : String → GoType
deriving DecidableEq, Repr

/-- A Go value satisfying the error interface.  Equality of two such
values (Go interface equality, used by slices.Contains) is equality of
dynamic type and identity tag; the message text msg plays no role in
identity, so two values with equal text can still be distinct. -/
structure GoError where
  ty : GoType
  tag : Nat
  msg : String
deriving DecidableEq, Repr

/-- An arbitrary Go value as carried by a panic: either a value
satisfying the error interface, or any other value, given by its
concrete type descriptor and an opaque datum. -/
inductive GoValue where
  | err : GoError → GoValue
  | nonErr : GoType → Nat → GoValue
deriving DecidableEq, Repr

/-- The concrete (dynamic) type descriptor of a value, as computed by
reflect.TypeOf. -/
def GoValue.typeOf : GoValue → GoType
  | .err e => e.ty
  | .nonErr ty _ => ty

/-- Whether the value satisfies the error interface (the Go type
switch case error succeeds on it). -/
def GoValue.isError : GoValue → Bool
  | .err _ => true
  | .nonErr _ _ => false

/-- Handler, as in nice.go: two target containers. -/
structure Handler where
  artefactTypes : List GoType
  errorTypes : List GoError
deriving DecidableEq, Repr

/-- One argument of the variadic targets list of Tackle.  A Go any
value is either an error-capable value (the type assertion t.(error)
succeeds), a reflect.Type descriptor (t.(reflect.Type) succeeds), or
neither. -/
inductive Target where
  | errTarget : GoError → Target
  | typeTarget : GoType → Target
  | other : Nat → Target
deriving DecidableEq, Repr

/-- Instrumented result of one run of Handler.With: the list of
arguments passed to the handle callback, in order, and the payload
passed to panic if the function re-raised. -/
structure WithResult where
  handleCalls : List GoValue
  repanic : Option GoValue
deriving DecidableEq, Repr

/-- Handler.With from nice.go, with the recover() primitive made an
explicit argument: none models a normal scope exit (recover returned
nil), some lastMsg models an in-flight panic payload. -/
def Handler.With (h : Handler) (recovered : Option GoValue) : WithResult :=
  match recovered with
  | none => { handleCalls := [], repanic := none }
  | some lastMsg =>
    match lastMsg with
    | .err asserted =>
      if h.artefactTypes.contains GoType.errorInterface then
        { handleCalls := [lastMsg], repanic := none }
      else if h.errorTypes.contains asserted then
        { handleCalls := [lastMsg], repanic := none }
      else
        { handleCalls := [], repanic := some lastMsg }
    | .nonErr ty d =>
      if h.artefactTypes.contains (GoValue.nonErr ty d).typeOf then
        { handleCalls := [lastMsg], repanic := none }
      else
        { handleCalls := [], repanic := some lastMsg }

/-- The loop body of Tackle from nice.go, accumulating the two
containers over the targets in order. -/
def tackleLoop : List Target → List GoType → List GoError → Handler
  | [], artefactTypes, errorTypes =>
      { artefactTypes := artefactTypes, errorTypes := errorTypes }
  | t :: rest, artefactTypes, errorTypes =>
    match t with
    | .errTarget e => tackleLoop rest artefactTypes (errorTypes ++ [e])
    | .typeTarget ty => tackleLoop rest (artefactTypes ++ [ty]) errorTypes
    | .other _ => tackleLoop rest artefactTypes errorTypes

/-- Tackle from nice.go: build a Handler by partitioning the targets,
starting from two empty containers. -/
def Tackle (targets : List Target) : Handler :=
  tackleLoop targets [] []

/-- Whether the Handler matches a payload: the disjunction of the
branch conditions of Handler.With that lead to a handle call. -/
def Handler.matches (h : Handler) (p : GoValue) : Bool :=
  match p with
  | .err e =>
      h.artefactTypes.contains GoType.errorInterface || h.errorTypes.contains e
  | .nonErr ty _ => h.artefactTypes.contains ty

/-- Extract the error value a target contributes to errorTypes. -/
def Target.asError : Target → Option GoError
  | .errTarget e => some e
  | _ => none

/-- Extract the type descriptor a target contributes to artefactTypes. -/
def Target.asType : Target → Option GoType
  | .typeTarget ty => some ty
  | _ => none

/-- Containment in a list is invariant under permutation. -/
theorem contains_eq_of_perm {α : Type} [DecidableEq α] {l1 l2 : List α}
    (hp : List.Perm l1 l2) (a : α) : l1.contains a = l2.contains a := by
  simp only [List.contains, List.elem_eq_mem]
  exact decide_eq_decide.mpr hp.mem_iff

/-- Characterization of the Tackle loop: it appends, in order, the
type descriptors to the first accumulator and the error values to the
second. -/
theorem tackleLoop_eq (targets : List Target) (ats : List GoType)
    (ets : List GoError) :
    tackleLoop targets ats ets =
      { artefactTypes := ats ++ targets.filterMap Target.asType,
        errorTypes := ets ++ targets.filterMap Target.asError } := by
  induction targets generalizing ats ets with
  | nil => simp [tackleLoop]
  | cons t rest ih =>
    cases t <;>
      simp [tackleLoop, Target.asType, Target.asError, ih, List.append_assoc]

/-- C1: whenever artefactTypes contains the generic error interface
descriptor, With on any error-capable payload calls handle exactly
once with that payload and re-raises nothing, regardless of what
valueTargets (errorTypes) holds — the generic-type check precedes the
exact-value check. -/
theorem generic_error_absorbs (h : Handler) (e : GoError)
    (hgen : h.artefactTypes.contains GoType.errorInterface = true) :
    h.With (some (GoValue.err e)) =
      { handleCalls := [GoValue.err e], repanic := none } := by
  simp_all [Handler.With]

/-- Witness for C1 at a concrete input: the handler registers a
specific error value that does NOT match the payload, plus the
generic error descriptor; the payload is still absorbed. -/
theorem generic_error_absorbs_witness :
    (Tackle [Target.errTarget ⟨GoType.named "T", 0, "a"⟩,
             Target.typeTarget GoType.errorInterface]).artefactTypes.contains
        GoType.errorInterface = true
    ∧ (Tackle [Target.errTarget ⟨GoType.named "T", 0, "a"⟩,
               Target.typeTarget GoType.errorInterface]).With
        (some (GoValue.err ⟨GoType.named "U", 1, "b"⟩)) =
      { handleCalls := [GoValue.err ⟨GoType.named "U", 1, "b"⟩],
        repanic := none } :=
  ⟨by decide, generic_error_absorbs _ _ (by decide)⟩

/-- C2: with no generic descriptor registered, a handler holding the
exact error value E absorbs a raised E, and does not absorb a raised F
that is not among its error values — message text plays no role, only
value identity (the witness below raises an F whose text equals that
of E). -/
theorem exact_value_matching (h : Handler) (E F : GoError)
    (hgen : h.artefactTypes.contains GoType.errorInterface = false)
    (hE : h.errorTypes.contains E = true)
    (hF : h.errorTypes.contains F = false) :
    h.With (some (GoValue.err E)) =
        { handleCalls := [GoValue.err E], repanic := none }
    ∧ h.With (some (GoValue.err F)) =
        { handleCalls := [], repanic := some (GoValue.err F) } := by
  constructor <;> simp_all [Handler.With]

/-- Witness for C2 at a concrete input: E and F share the message text
"boom" yet only E is absorbed; F is re-raised unchanged. -/
theorem exact_value_matching_witness :
    (⟨GoType.named "errorString", 0, "boom"⟩ : GoError).msg =
        (⟨GoType.named "errorString", 1, "boom"⟩ : GoError).msg
    ∧ ((Tackle [Target.errTarget ⟨GoType.named "errorString", 0, "boom"⟩]).With
        (some (GoValue.err ⟨GoType.named "errorString", 0, "boom"⟩)) =
          { handleCalls := [GoValue.err ⟨GoType.named "errorString", 0, "boom"⟩],
            repanic := none }
      ∧ (Tackle [Target.errTarget ⟨GoType.named "errorString", 0, "boom"⟩]).With
          (some (GoValue.err ⟨GoType.named "errorString", 1, "boom"⟩)) =
            { handleCalls := [],
              repanic := some (GoValue.err ⟨GoType.named "errorString", 1, "boom"⟩) }) :=
  ⟨rfl, exact_value_matching _ _ _ (by decide) (by decide) (by decide)⟩

/-- C3: for a payload that does not satisfy the error interface, With
absorbs (calling handle once with the payload) exactly when
artefactTypes contains the concrete type descriptor of the payload;
otherwise it re-raises the payload. -/
theorem type_matching_nonerror (h : Handler) (ty : GoType) (d : Nat) :
    (h.With (some (GoValue.nonErr ty d)) =
        { handleCalls := [GoValue.nonErr ty d], repanic := none }
      ↔ h.artefactTypes.contains ty = true)
    ∧ (h.artefactTypes.contains ty = false →
        h.With (some (GoValue.nonErr ty d)) =
          { handleCalls := [], repanic := some (GoValue.nonErr ty d) }) := by
  by_cases hc : h.artefactTypes.contains ty = true <;>
    simp_all [Handler.With, GoValue.typeOf]

/-- Witness for C3 at concrete inputs: a handler registered for the
string type absorbs a string payload and re-raises an int payload. -/
theorem type_matching_nonerror_witness :
    (Tackle [Target.typeTarget (GoType.named "string")]).With
        (some (GoValue.nonErr (GoType.named "string") 0)) =
      { handleCalls := [GoValue.nonErr (GoType.named "string") 0],
        repanic := none }
    ∧ (Tackle [Target.typeTarget (GoType.named "string")]).With
        (some (GoValue.nonErr (GoType.named "int") 7)) =
      { handleCalls := [], repanic := some (GoValue.nonErr (GoType.named "int") 7) } :=
  ⟨(type_matching_nonerror _ _ _).1.mpr (by decide),
   (type_matching_nonerror _ _ _).2 (by decide)⟩

/-- C4: a payload matched by none of the targets of the handler is
re-raised exactly as it came in, and handle is not invoked. -/
theorem no_match_propagates (h : Handler) (p : GoValue)
    (hm : h.matches p = false) :
    h.With (some p) = { handleCalls := [], repanic := some p } := by
  cases p <;> simp_all [Handler.With, Handler.matches, GoValue.typeOf]

/-- Witness for C4 at a concrete input: a handler registered only for
a specific error value re-raises a string payload unchanged. -/
theorem no_match_propagates_witness :
    (Tackle [Target.errTarget ⟨GoType.named "errorString", 0, "boom"⟩]).matches
        (GoValue.nonErr (GoType.named "string") 3) = false
    ∧ (Tackle [Target.errTarget ⟨GoType.named "errorString", 0, "boom"⟩]).With
        (some (GoValue.nonErr (GoType.named "string") 3)) =
      { handleCalls := [], repanic := some (GoValue.nonErr (GoType.named "string") 3) } :=
  ⟨by decide, no_match_propagates _ _ (by decide)⟩

/-- C5: Tackle partitions its targets: errorTypes is exactly the
subsequence of error-capable targets and artefactTypes exactly the
subsequence of type-descriptor targets, each in original relative
order; a target that is neither contributes to neither container. -/
theorem tackle_partitions (targets : List Target) :
    (Tackle targets).errorTypes = targets.filterMap Target.asError
    ∧ (Tackle targets).artefactTypes = targets.filterMap Target.asType := by
  rw [Tackle, tackleLoop_eq]
  simp

/-- C6: an error-capable payload whose own concrete type descriptor is
registered in artefactTypes is nevertheless re-raised (handle never
runs) when the generic error descriptor is absent and no registered
error value is identical to the payload — concrete-type matching
applies only to non-error payloads. -/
theorem error_payload_ignores_concrete_type (h : Handler) (e : GoError)
    (hty : h.artefactTypes.contains e.ty = true)
    (hgen : h.artefactTypes.contains GoType.errorInterface = false)
    (hval : h.errorTypes.contains e = false) :
    h.With (some (GoValue.err e)) =
      { handleCalls := [], repanic := some (GoValue.err e) } := by
  simp_all [Handler.With]

/-- Witness for C6 at a concrete input: the handler registers the
concrete type of the raised error value, yet the error is re-raised. -/
theorem error_payload_ignores_concrete_type_witness :
    (Tackle [Target.typeTarget (GoType.named "myError")]).artefactTypes.contains
        (⟨GoType.named "myError", 0, "x"⟩ : GoError).ty = true
    ∧ (Tackle [Target.typeTarget (GoType.named "myError")]).With
        (some (GoValue.err ⟨GoType.named "myError", 0, "x"⟩)) =
      { handleCalls := [],
        repanic := some (GoValue.err ⟨GoType.named "myError", 0, "x"⟩) } :=
  ⟨by decide,
   error_payload_ignores_concrete_type _ _ (by decide) (by decide) (by decide)⟩

/-- C7: on a normal scope exit (recover yields nothing) With is a
no-op: handle is never invoked and nothing is re-raised. -/
theorem normal_exit_noop (h : Handler) :
    h.With none = { handleCalls := [], repanic := none } := rfl

/-- C8: every invocation of With reaches exactly one of three terminal
outcomes: Idle (normal exit, no handle call, no re-raise), Absorbed
(handle called exactly once with the payload, no re-raise), or
Propagated (no handle call, the payload re-raised).  The three
disjuncts are pairwise incompatible, so handle never runs more than
once and no invocation both absorbs and re-raises. -/
theorem with_terminal_outcome (h : Handler) (recovered : Option GoValue) :
    (recovered = none
      ∧ h.With recovered = { handleCalls := [], repanic := none })
    ∨ (∃ p, recovered = some p
      ∧ h.With recovered = { handleCalls := [p], repanic := none })
    ∨ (∃ p, recovered = some p
      ∧ h.With recovered = { handleCalls := [], repanic := some p }) := by
  cases recovered with
  | none => exact Or.inl ⟨rfl, rfl⟩
  | some p =>
    cases p with
    | err e =>
      by_cases h1 : h.artefactTypes.contains GoType.errorInterface = true
      · exact Or.inr (Or.inl ⟨_, rfl, by simp_all [Handler.With]⟩)
      · by_cases h2 : h.errorTypes.contains e = true
        · exact Or.inr (Or.inl ⟨_, rfl, by simp_all [Handler.With]⟩)
        · exact Or.inr (Or.inr ⟨_, rfl, by simp_all [Handler.With]⟩)
    | nonErr ty d =>
      by_cases h1 : h.artefactTypes.contains ty = true
      · exact Or.inr (Or.inl ⟨_, rfl, by simp_all [Handler.With, GoValue.typeOf]⟩)
      · exact Or.inr (Or.inr ⟨_, rfl, by simp_all [Handler.With, GoValue.typeOf]⟩)

/-- C9: matching is a pure membership test: two handlers whose
container lists are permutations of each other produce the same
WithResult (same calls to handle, same re-raise decision) on every
value of the recover primitive. -/
theorem matching_order_irrelevant (h1 h2 : Handler)
    (hpt : List.Perm h1.artefactTypes h2.artefactTypes)
    (hpv : List.Perm h1.errorTypes h2.errorTypes)
    (recovered : Option GoValue) :
    h1.With recovered = h2.With recovered := by
  cases recovered with
  | none => rfl
  | some p =>
    cases p with
    | err e =>
      simp only [Handler.With, contains_eq_of_perm hpt,
        contains_eq_of_perm hpv]
    | nonErr ty d =>
      simp only [Handler.With, contains_eq_of_perm hpt]

/-- Witness for C9 at concrete inputs: two handlers with the same
targets supplied in opposite orders absorb the same error payload with
the same result. -/
theorem matching_order_irrelevant_witness :
    List.Perm
        (Tackle [Target.typeTarget (GoType.named "string"),
                 Target.typeTarget GoType.errorInterface]).artefactTypes
        (Tackle [Target.typeTarget GoType.errorInterface,
                 Target.typeTarget (GoType.named "string")]).artefactTypes
    ∧ (Tackle [Target.typeTarget (GoType.named "string"),
               Target.typeTarget GoType.errorInterface]).With
          (some (GoValue.err ⟨GoType.named "errorString", 5, "e"⟩)) =
        (Tackle [Target.typeTarget GoType.errorInterface,
                 Target.typeTarget (GoType.named "string")]).With
          (some (GoValue.err ⟨GoType.named "errorString", 5, "e"⟩)) :=
  ⟨by decide,
   matching_order_irrelevant _ _ (by decide) (by decide) _⟩

/-- C10: the handler built from an empty target list absorbs nothing:
every in-flight payload is re-raised unchanged and handle is never
invoked. -/
theorem empty_tackle_propagates (p : GoValue) :
    (Tackle []).With (some p) = { handleCalls := [], repanic := some p } := by
  cases p <;> simp [Tackle, tackleLoop, Handler.With, GoValue.typeOf]

end Nice
